import Mathlib

/-!
Shallow embedding of `src/main.py` (codeintel-package-manifest-linter).

The program loads a package-manifest file (npm / pip / maven), normalizes it
into a Python-dict-like value, runs format-specific lint rules producing a
list of message strings, and maps the outcome to an exit code.

Python values reachable here (results of `json.load`, the pip line list, and
the `{}` maven placeholder) are modelled by `JVal`.  Python numbers are
modelled by `Int`; JSON floats do not occur in any property considered here.
Operations that can raise (`.get` on a non-dict, `.keys()` / `.items()` on a
non-dict, `in` on an int, …) return `Option`/`Except` values.
-/

/-- A Python/JSON value as produced by `json.load` and by the loader. -/
inductive JVal where
  | null
  | bool (b : Bool)
  | num (n : Int)
  | str (s : String)
  | arr (xs : List JVal)
  | obj (kvs : List (String × JVal))

/-- Python truthiness (`if not self.manifest_data.get(...)` in `_lint_npm`):
`None`, `False`, `0`, `""`, `[]`, `{}` are falsy, everything else truthy. -/
def pyTruthy : JVal → Bool
  | .null => false
  | .bool b => b
  | .num n => n != 0
  | .str s => !(s == "")
  | .arr xs => !xs.isEmpty
  | .obj kvs => !kvs.isEmpty

/-- Python `dict.get(k)`: the value at `k`, or `None` when absent.
JSON objects from `json.load` have unique keys, so first-match lookup agrees
with the Python dict. -/
def pyGet (kvs : List (String × JVal)) (k : String) : JVal :=
  (kvs.lookup k).getD .null

/-- Python `k in dict` (key membership test, `main.py` lines 114 and 121). -/
def hasKey (kvs : List (String × JVal)) (k : String) : Bool :=
  (kvs.lookup k).isSome

/-- Python `.keys()` (`main.py` line 115): the key sequence of a dict, in
insertion order; `AttributeError` (`none`) on any non-dict value. -/
def keysOf : JVal → Option (List String)
  | .obj kvs => some (kvs.map Prod.fst)
  | _ => none

/-- Python `.items()` (`main.py` line 122): the key/value pairs of a dict in
insertion order; `AttributeError` (`none`) on any non-dict value. -/
def itemsOf : JVal → Option (List (String × JVal))
  | .obj kvs => some kvs
  | _ => none

/-- ASCII whitespace stripped by Python `str.strip()`. -/
def isPySpace (c : Char) : Bool :=
  c == ' ' || c == '\t' || c == '\n' || c == '\r' || c == '\x0b' || c == '\x0c'

/-- Python `line.strip()`: remove leading and trailing whitespace. -/
def pyStrip (s : String) : String :=
  ⟨((s.data.dropWhile isPySpace).reverse.dropWhile isPySpace).reverse⟩

/-- Python `s.startswith(pre)`. -/
def pyStartsWith (s pre : String) : Bool :=
  pre.data.isPrefixOf s.data

/-- Occurrence of `pat` as a contiguous subsequence, checked position by
position. -/
def pyInChars (pat : List Char) : List Char → Bool
  | [] => pat.isEmpty
  | c :: rest => pat.isPrefixOf (c :: rest) || pyInChars pat rest

/-- Python substring test `pat in s`. -/
def pyInStr (pat s : String) : Bool :=
  pyInChars pat.data s.data

/-- Python `"*" in version` (`main.py` line 123).  For a string this is the
substring test; for a list, element membership of the string `"*"` (Python
`==` between `"*"` and a non-string JSON value is `False`); for a dict, key
membership; for `None`/bool/number it raises `TypeError` (`none`). -/
def pyContainsStar : JVal → Option Bool
  | .str s => some (pyInStr "*" s)
  | .arr xs => some (xs.any fun v => match v with | .str s => s == "*" | _ => false)
  | .obj kvs => some ((kvs.map Prod.fst).any (· == "*"))
  | _ => none

/-- Python `str(v)` as used by the f-string on `main.py` line 124.  Only
string versions are rendered by any behaviour studied here; the remaining
cases follow Python `str` for scalars, and containers (whose Python rendering
recurses) are not modelled beyond a marker. -/
def pyStr : JVal → String
  | .null => "None"
  | .bool true => "True"
  | .bool false => "False"
  | .num n => toString n
  | .str s => s
  | .arr _ => "<list>"
  | .obj _ => "<dict>"

/-- Python `set(a) & set(b)` over key lists (`main.py` line 115), modelled as
the order-preserving intersection without duplicates.  CPython iterates a set
in hash order; any fixed order is a faithful model since the program only
joins the elements, and dict key lists carry no duplicates anyway. -/
def pySetInter (a b : List String) : List String :=
  (a.inter b).dedup

/- ------------------------------------------------------------------
Diagnostic message texts, verbatim from `src/main.py`.
------------------------------------------------------------------ -/

def descText : String :=
  "Warning: 'description' field is missing in package.json"

def repoText : String :=
  "Warning: 'repository' field is missing in package.json"

def ovText (names : String) : String :=
  "Warning: The following dependencies exist in both 'dependencies' and 'devDependencies': " ++ names

def wildText (dep : String) (version : JVal) : String :=
  "Warning: Dependency " ++ dep ++ " has a wildcard version: " ++ pyStr version

def unpinText (dep : String) : String :=
  "Warning: Dependency '" ++ dep ++
    "' does not have a specific version specified. Consider using '==' for reproducible builds."

def incText (dep : String) : String :=
  "Info: Dependency includes another requirement file '" ++ dep ++
    "'.  Verify included files are present."

def mavenText : String :=
  "Maven linting is not fully implemented yet.  This is a placeholder."

/- ------------------------------------------------------------------
Loader (`_load_manifest`, `main.py` lines 36-75).

The file system is abstracted: `fileExists` is `os.path.exists(path)`;
`parsed` is the outcome of `json.load` on the file contents (`none` models
`json.JSONDecodeError`); `lines` is `f.readlines()` (text lines, modelled
without their trailing newline, which `strip()` would remove anyway).
------------------------------------------------------------------ -/

/-- The exception type that escapes `_load_manifest`:
`FileNotFoundError` (line 50), `ValueError` (lines 70-72, JSON decode
failure re-raised as `ValueError`), or the bare `Exception` that the
catch-all on lines 73-75 re-raises everything else as. -/
inductive LoadError where
  | fileNotFound (msg : String)
  | valueError (msg : String)
  | genericError (msg : String)

/-- The pip line filter (`main.py` line 61):
`[line.strip() for line in data if line.strip() and not line.startswith("#")]`.
Note that `startswith("#")` tests the raw line, before stripping. -/
def pipNormalize (lines : List String) : List String :=
  (lines.filter fun line => !(pyStrip line == "") && !(pyStartsWith line "#")).map pyStrip

/-- `_load_manifest` (`main.py` lines 36-75).  The `ValueError` raised for an
unsupported manifest type on line 69 is raised inside the `try` block, so the
catch-all `except Exception` on line 73 intercepts it and re-raises it as a
generic `Exception("Error loading manifest file: ...")`. -/
def loadManifest (manifestType path : String) (fileExists : Bool)
    (parsed : Option JVal) (lines : List String) : Except LoadError JVal :=
  if !fileExists then
    .error (.fileNotFound ("Manifest file not found: " ++ path))
  else if manifestType == "npm" then
    match parsed with
    | some data => .ok data
    | none => .error (.valueError ("Invalid JSON in " ++ path))
  else if manifestType == "pip" then
    .ok (.obj [("dependencies", .arr ((pipNormalize lines).map .str))])
  else if manifestType == "maven" then
    .ok (.obj [])
  else
    .error (.genericError ("Error loading manifest file: " ++ path))

/- ------------------------------------------------------------------
Rule evaluation (`lint` and the `_lint_*` methods, `main.py` lines 77-154).
An exception raised during linting (e.g. `AttributeError` on a malformed
manifest) discards all accumulated messages, so the in-place `append` loops
are modelled by structural recursion producing the same sequence, with
`none` for a raised exception.
------------------------------------------------------------------ -/

/-- The `description` check (`main.py` lines 106-107). -/
def descMsgs (kvs : List (String × JVal)) : List String :=
  if pyTruthy (pyGet kvs "description") then [] else [descText]

/-- The `repository` check (`main.py` lines 110-111). -/
def repoMsgs (kvs : List (String × JVal)) : List String :=
  if pyTruthy (pyGet kvs "repository") then [] else [repoText]

/-- The dependency-overlap check (`main.py` lines 114-117): when both groups
are present, intersect their key sets and, if non-empty, emit one warning
joining the names with `", "`. -/
def ovMsgs (kvs : List (String × JVal)) : Option (List String) :=
  if hasKey kvs "dependencies" && hasKey kvs "devDependencies" then do
    let dk ← keysOf (pyGet kvs "dependencies")
    let vk ← keysOf (pyGet kvs "devDependencies")
    let common := pySetInter dk vk
    pure (if common.isEmpty then [] else [ovText (String.intercalate ", " common)])
  else
    pure []

/-- The inner wildcard loop (`main.py` lines 122-124): one warning per
dependency whose version contains `*`. -/
def wildLoop : List (String × JVal) → Option (List String)
  | [] => some []
  | (dep, version) :: rest => do
    let star ← pyContainsStar version
    let ms ← wildLoop rest
    pure ((if star then [wildText dep version] else []) ++ ms)

/-- One iteration of the outer wildcard loop (`main.py` lines 120-121): a
group contributes nothing when absent, and its `.items()` scan otherwise. -/
def wildGroup (kvs : List (String × JVal)) (depType : String) : Option (List String) :=
  match kvs.lookup depType with
  | none => some []
  | some g => do
    let items ← itemsOf g
    wildLoop items

/-- `_lint_npm` (`main.py` lines 96-126): the four checks in order, on a dict
manifest; any raised exception (`none`) discards all messages. -/
def lintNpm (data : JVal) : Option (List String) := do
  let kvs ← itemsOf data
  let ov ← ovMsgs kvs
  let w1 ← wildGroup kvs "dependencies"
  let w2 ← wildGroup kvs "devDependencies"
  pure (descMsgs kvs ++ repoMsgs kvs ++ ov ++ w1 ++ w2)

/-- Per-line checks of `_lint_pip` (`main.py` lines 139-143): a pinned-version
warning when none of `==`, `>=`, `<=`, `~=` occurs, and an include info when
the line starts with `-r`; both independent. -/
def lintPipDeps : List String → List String
  | [] => []
  | dep :: rest =>
    (if !(pyInStr "==" dep) && !(pyInStr ">=" dep) && !(pyInStr "<=" dep)
        && !(pyInStr "~=" dep) then [unpinText dep] else []) ++
    (if pyStartsWith dep "-r" then [incText dep] else []) ++
    lintPipDeps rest

/-- Reads back a list of string values, failing on any other element. -/
def asStrList : List JVal → Option (List String)
  | [] => some []
  | .str s :: rest => do pure (s :: (← asStrList rest))
  | _ :: _ => none

/-- `_lint_pip` (`main.py` lines 128-144).  The loader only ever stores a
list of strings under `"dependencies"`, so iterating any other shape (which
Python would handle or reject case by case) is modelled as a failure. -/
def lintPip (data : JVal) : Option (List String) := do
  let kvs ← itemsOf data
  match kvs.lookup "dependencies" with
  | none => pure []
  | some v =>
    match v with
    | .arr deps => do
      let strs ← asStrList deps
      pure (lintPipDeps strs)
    | _ => none

/-- `_lint_maven` (`main.py` lines 146-154): the fixed placeholder message. -/
def lintMaven : List String :=
  [mavenText]

/-- `lint` (`main.py` lines 77-94): dispatch on the manifest type; an
unrecognized type leaves the message list empty. -/
def lint (manifestType : String) (data : JVal) : Option (List String) :=
  if manifestType == "npm" then lintNpm data
  else if manifestType == "pip" then lintPip data
  else if manifestType == "maven" then some lintMaven
  else some []

/- ------------------------------------------------------------------
Driver (`main`, `main.py` lines 183-214): load, lint, print, exit code.
------------------------------------------------------------------ -/

/-- `main` (`main.py` lines 183-214), returning the exit code and the lines
printed.  A `FileNotFoundError` or `ValueError` prints `Error: ...`; any
other exception — including one raised inside `lint()` — prints
`An unexpected error occurred: ...`; otherwise diagnostics decide the code. -/
def mainRun (manifestType path : String) (fileExists : Bool)
    (parsed : Option JVal) (lines : List String) : Int × List String :=
  match loadManifest manifestType path fileExists parsed lines with
  | .error (.fileNotFound msg) => (1, ["Error: " ++ msg])
  | .error (.valueError msg) => (1, ["Error: " ++ msg])
  | .error (.genericError msg) => (1, ["An unexpected error occurred: " ++ msg])
  | .ok data =>
    match lint manifestType data with
    | none => (1, ["An unexpected error occurred."])
    | some [] => (0, ["No linting issues found."])
    | some msgs => (1, "Linting results:" :: msgs)

/- ------------------------------------------------------------------
Theorems.
------------------------------------------------------------------ -/

/-- C1 (counterexample): on the pip file with lines `flask==2.0.0`, ``,
`# comment`, `-r other.txt`, evaluation yields TWO diagnostics, not one:
`-r other.txt` contains none of `==`, `>=`, `<=`, `~=`, so it also triggers
the unpinned-version Warning before the include Info. -/
theorem pip_end_to_end_counterexample :
    lintPipDeps (pipNormalize ["flask==2.0.0", "", "# comment", "-r other.txt"]) =
      [unpinText "-r other.txt", incText "-r other.txt"] ∧
    (lintPipDeps (pipNormalize ["flask==2.0.0", "", "# comment", "-r other.txt"])).length = 2 :=
  ⟨rfl, rfl⟩

/-- C1 (amended): for that pip file, loading keeps exactly `flask==2.0.0`
and `-r other.txt`, and evaluating yields exactly two diagnostics — the
unpinned-version Warning for `-r other.txt` followed by the include Info for
`-r other.txt` (the `flask==2.0.0` line produces nothing) — and the exit
code is 1. -/
theorem pip_end_to_end_amended :
    loadManifest "pip" "requirements.txt" true none
        ["flask==2.0.0", "", "# comment", "-r other.txt"] =
      .ok (.obj [("dependencies", .arr [.str "flask==2.0.0", .str "-r other.txt"])]) ∧
    mainRun "pip" "requirements.txt" true none
        ["flask==2.0.0", "", "# comment", "-r other.txt"] =
      (1, ["Linting results:", unpinText "-r other.txt", incText "-r other.txt"]) :=
  ⟨rfl, rfl⟩

/-- C2 (counterexample): the loader tests `startswith("#")` on the RAW line,
so the line `" # comment"` (comment preceded by a space) is kept as
`"# comment"` — the claim says any line whose trimmed form starts with `#`
is excluded and contributes no diagnostic, but this one is kept and
produces an unpinned-version Warning. -/
theorem pip_comment_filter_counterexample :
    pipNormalize [" # comment"] = ["# comment"] ∧
    mainRun "pip" "requirements.txt" true none [" # comment"] =
      (1, ["Linting results:", unpinText "# comment"]) :=
  ⟨rfl, rfl⟩

/-- C2 (amended): a pip line is kept iff its stripped form is non-empty and
the RAW (unstripped) line does not start with `#`; the normalized manifest is
the ordered sequence of kept, stripped lines; and every line that is blank
after stripping, or whose raw text starts with `#`, is excluded entirely and
contributes zero diagnostics to the whole run. -/
theorem pip_filter_amended (path : String) (parsed : Option JVal)
    (lines pre post : List String) (bad : String)
    (hbad : pyStrip bad = "" ∨ pyStartsWith bad "#" = true) :
    pipNormalize lines =
      (lines.filter fun l => !(pyStrip l == "") && !(pyStartsWith l "#")).map pyStrip ∧
    pipNormalize (pre ++ bad :: post) = pipNormalize (pre ++ post) ∧
    mainRun "pip" path true parsed (pre ++ bad :: post) =
      mainRun "pip" path true parsed (pre ++ post) := by
  have hcond : (!(pyStrip bad == "") && !(pyStartsWith bad "#")) = false := by
    rcases hbad with h | h <;> simp [h]
  have h2 : pipNormalize (pre ++ bad :: post) = pipNormalize (pre ++ post) := by
    simp [pipNormalize, List.filter_append, List.filter_cons, hcond]
  have h3 : loadManifest "pip" path true parsed (pre ++ bad :: post) =
      loadManifest "pip" path true parsed (pre ++ post) := by
    unfold loadManifest
    rw [h2]
  refine ⟨rfl, h2, ?_⟩
  unfold mainRun
  rw [h3]

/-- C2 witness: a blank line is dropped without changing the run. -/
theorem pip_filter_amended_witness :
    pipNormalize (["flask==2.0.0"] ++ "  " :: ["requests"]) =
      pipNormalize (["flask==2.0.0"] ++ ["requests"]) :=
  (pip_filter_amended "requirements.txt" none [] ["flask==2.0.0"] ["requests"] "  "
    (Or.inl rfl)).2.1

/-- C7 (counterexample): for the unrecognized format tag `cargo` on an
existing file, the loader's own catch-all turns the `ValueError` raised for
the unsupported type into a generic exception, so the surfaced failure is the
untyped generic one, not a distinct typed unsupported-format error. -/
theorem unsupported_format_counterexample :
    loadManifest "cargo" "f.txt" true none [] =
      .error (.genericError "Error loading manifest file: f.txt") ∧
    mainRun "cargo" "f.txt" true none [] =
      (1, ["An unexpected error occurred: Error loading manifest file: f.txt"]) ∧
    LoadError.genericError "Error loading manifest file: f.txt" ≠
      LoadError.valueError "Unsupported manifest type: cargo" :=
  ⟨rfl, rfl, fun h => LoadError.noConfusion h⟩

/-- C7 (amended): for every format tag outside {npm, pip, maven} and every
existing file, loading fails — the `ValueError` raised on `main.py` line 69
is intercepted by the loader's catch-all on lines 73-75 and re-raised as the
generic `Exception("Error loading manifest file: ...")` — and the failure is
surfaced fatally with exit code 1 (printed as an unexpected error, not as a
typed one). -/
theorem unsupported_format_wrapped (manifestType path : String)
    (parsed : Option JVal) (lines : List String)
    (h1 : manifestType ≠ "npm") (h2 : manifestType ≠ "pip")
    (h3 : manifestType ≠ "maven") :
    loadManifest manifestType path true parsed lines =
      .error (.genericError ("Error loading manifest file: " ++ path)) ∧
    mainRun manifestType path true parsed lines =
      (1, ["An unexpected error occurred: " ++ ("Error loading manifest file: " ++ path)]) := by
  have e1 : (manifestType == "npm") = false := by simp [h1]
  have e2 : (manifestType == "pip") = false := by simp [h2]
  have e3 : (manifestType == "maven") = false := by simp [h3]
  have hl : loadManifest manifestType path true parsed lines =
      .error (.genericError ("Error loading manifest file: " ++ path)) := by
    unfold loadManifest
    simp [e1, e2, e3]
  refine ⟨hl, ?_⟩
  unfold mainRun
  rw [hl]

/-- C7 witness: the amended behaviour at the concrete tag `cargo`. -/
theorem unsupported_format_wrapped_witness :
    mainRun "cargo" "m.txt" true none [] =
      (1, ["An unexpected error occurred: " ++ ("Error loading manifest file: " ++ "m.txt")]) :=
  (unsupported_format_wrapped "cargo" "m.txt" none [] (by decide) (by decide) (by decide)).2

/-- C8: for every maven input (any existing file, any contents), the loader
returns the empty manifest `{}` and evaluation returns exactly the one fixed
placeholder diagnostic saying Maven linting is unimplemented; end to end the
run prints it and exits with code 1. -/
theorem maven_stub_behaviour (path : String) (parsed : Option JVal)
    (lines : List String) (data : JVal) :
    loadManifest "maven" path true parsed lines = .ok (.obj []) ∧
    lint "maven" data = some [mavenText] ∧
    mainRun "maven" path true parsed lines = (1, ["Linting results:", mavenText]) :=
  ⟨rfl, rfl, rfl⟩

/-- C9: the evaluator is a deterministic (pure, in this embedding functional)
map of its inputs: two evaluations of the same normalized manifest under the
same format tag yield the same diagnostic sequence, in content and order. -/
theorem evaluator_deterministic (manifestType : String) (data : JVal)
    (out₁ out₂ : Option (List String))
    (h₁ : lint manifestType data = out₁) (h₂ : lint manifestType data = out₂) :
    out₁ = out₂ := by
  rw [← h₁, ← h₂]

/-- C9 witness: determinism applied at a concrete pip manifest. -/
theorem evaluator_deterministic_witness : lint "pip" (JVal.obj []) = some [] :=
  evaluator_deterministic "pip" (JVal.obj []) (lint "pip" (JVal.obj [])) (some []) rfl rfl

/-- Each pip line contributes its own block of messages, independently of the
rest of the file. -/
lemma lintPipDeps_cons (dep : String) (rest : List String) :
    lintPipDeps (dep :: rest) = lintPipDeps [dep] ++ lintPipDeps rest := by
  simp [lintPipDeps, List.append_assoc]

/-- The single-line contribution, phrased with propositional conditions. -/
lemma lintPipDeps_singleton (dep : String) :
    lintPipDeps [dep] =
      (if pyInStr "==" dep = false ∧ pyInStr ">=" dep = false ∧ pyInStr "<=" dep = false
          ∧ pyInStr "~=" dep = false then [unpinText dep] else []) ++
      (if pyStartsWith dep "-r" = true then [incText dep] else []) := by
  cases h1 : pyInStr "==" dep <;> cases h2 : pyInStr ">=" dep <;>
    cases h3 : pyInStr "<=" dep <;> cases h4 : pyInStr "~=" dep <;>
    simp [lintPipDeps, h1, h2, h3, h4]

/-- `_lint_pip` is the per-line flat map of the single-line contribution. -/
lemma lintPipDeps_eq_flatMap (deps : List String) :
    lintPipDeps deps = deps.flatMap fun dep => lintPipDeps [dep] := by
  induction deps with
  | nil => rfl
  | cons dep rest ih => rw [lintPipDeps_cons, ih, List.flatMap_cons]

/-- C3: for every kept pip line the two checks run independently: the line
produces exactly one unpinned-version Warning iff it contains none of `==`,
`>=`, `<=`, `~=`, and exactly one include Info iff it starts with `-r`; each
line hence yields zero, one or two diagnostics, and a line containing one of
the four substrings never yields the unpinned Warning. -/
theorem pip_line_rules (deps : List String) :
    (lintPipDeps deps = deps.flatMap fun dep =>
      (if pyInStr "==" dep = false ∧ pyInStr ">=" dep = false ∧ pyInStr "<=" dep = false
          ∧ pyInStr "~=" dep = false then [unpinText dep] else []) ++
      (if pyStartsWith dep "-r" = true then [incText dep] else [])) ∧
    (∀ dep : String, (lintPipDeps [dep]).length ≤ 2) ∧
    (∀ dep : String,
      (pyInStr "==" dep = true ∨ pyInStr ">=" dep = true ∨ pyInStr "<=" dep = true
        ∨ pyInStr "~=" dep = true) →
      lintPipDeps [dep] = if pyStartsWith dep "-r" = true then [incText dep] else []) := by
  refine ⟨?_, ?_, ?_⟩
  · rw [lintPipDeps_eq_flatMap]
    simp only [lintPipDeps_singleton]
  · intro dep
    rw [lintPipDeps_singleton]
    split <;> split <;> simp
  · intro dep h
    rw [lintPipDeps_singleton]
    rcases h with h | h | h | h <;> simp [h]

/-- C3 witness: a pinned line yields nothing; an include line yields its two
messages. -/
theorem pip_line_rules_witness :
    lintPipDeps ["flask==2.0.0"] = [] ∧
    lintPipDeps ["flask==2.0.0", "-r other.txt"] =
      [unpinText "-r other.txt", incText "-r other.txt"] := by
  constructor
  · have h := (pip_line_rules ["flask==2.0.0"]).2.2 "flask==2.0.0" (Or.inl rfl)
    rw [h]
    rfl
  · have h := (pip_line_rules ["flask==2.0.0", "-r other.txt"]).1
    rw [h]
    rfl

/-- A dependency group whose version specs are all strings, as the shape
invariant of §3 of the spec prescribes for npm manifests. -/
def strGroup (g : List (String × String)) : JVal :=
  .obj (g.map fun p => (p.1, JVal.str p.2))

/-- A dependency-group entry is either absent or a string-valued object. -/
def GroupOk (o : Option JVal) : Prop :=
  o = none ∨ ∃ g : List (String × String), o = some (strGroup g)

/-- The npm shape invariant of §3: an object whose `dependencies` and
`devDependencies` entries, when present, map names to version-spec strings. -/
def NpmShaped (m : JVal) : Prop :=
  ∃ kvs : List (String × JVal), m = .obj kvs ∧
    GroupOk (kvs.lookup "dependencies") ∧ GroupOk (kvs.lookup "devDependencies")

/-- The pip shape invariant: the loader's output object, whose
`dependencies` entry (when present) is a list of specifier strings. -/
def PipShaped (m : JVal) : Prop :=
  ∃ kvs : List (String × JVal), m = .obj kvs ∧
    (kvs.lookup "dependencies" = none ∨
      ∃ ls : List String, kvs.lookup "dependencies" = some (.arr (ls.map .str)))

lemma strGroup_keys (g : List (String × String)) :
    (g.map fun p => (p.1, JVal.str p.2)).map Prod.fst = g.map Prod.fst := by
  rw [List.map_map]
  rfl

/-- `_lint_npm` on an object is the bind-chain of its four checks. -/
lemma lintNpm_obj (kvs : List (String × JVal)) :
    lintNpm (.obj kvs) = (ovMsgs kvs).bind fun ov =>
      (wildGroup kvs "dependencies").bind fun w1 =>
        (wildGroup kvs "devDependencies").bind fun w2 =>
          some (descMsgs kvs ++ repoMsgs kvs ++ ov ++ w1 ++ w2) := rfl

/-- The wildcard scan of a string-valued group never raises and flags
exactly the entries whose version contains `*`. -/
lemma wildLoop_map_str (g : List (String × String)) :
    wildLoop (g.map fun p => (p.1, JVal.str p.2)) =
      some (g.flatMap fun p =>
        if pyInStr "*" p.2 = true then [wildText p.1 (.str p.2)] else []) := by
  induction g with
  | nil => rfl
  | cons p rest ih => simp [wildLoop, pyContainsStar, ih, List.flatMap_cons]

lemma wildGroup_strGroup (kvs : List (String × JVal)) (name : String)
    (g : List (String × String)) (h : kvs.lookup name = some (strGroup g)) :
    wildGroup kvs name = some (g.flatMap fun p =>
      if pyInStr "*" p.2 = true then [wildText p.1 (.str p.2)] else []) := by
  unfold wildGroup
  rw [h]
  exact wildLoop_map_str g

lemma wildGroup_absent (kvs : List (String × JVal)) (name : String)
    (h : kvs.lookup name = none) : wildGroup kvs name = some [] := by
  unfold wildGroup
  rw [h]

lemma ovMsgs_both (kvs d v : List (String × JVal))
    (hd : kvs.lookup "dependencies" = some (.obj d))
    (hv : kvs.lookup "devDependencies" = some (.obj v)) :
    ovMsgs kvs = some (
      if (pySetInter (d.map Prod.fst) (v.map Prod.fst)).isEmpty then []
      else [ovText (String.intercalate ", "
        (pySetInter (d.map Prod.fst) (v.map Prod.fst)))]) := by
  unfold ovMsgs hasKey pyGet
  rw [hd, hv]
  rfl

lemma ovMsgs_absent (kvs : List (String × JVal))
    (h : kvs.lookup "dependencies" = none ∨ kvs.lookup "devDependencies" = none) :
    ovMsgs kvs = some [] := by
  unfold ovMsgs hasKey
  rcases h with h | h <;> simp [h]

/-- C4: when both `dependencies` and `devDependencies` exist (with string
version specs) and their key sets intersect, evaluation emits exactly one
overlap Warning in the overlap slot, joining exactly the intersection of the
key sets with `", "`, without duplicates, missing or extra names; an empty
intersection leaves the slot empty, and so does an absent group. -/
theorem npm_overlap_rule :
    (∀ (kvs : List (String × JVal)) (d v : List (String × String)),
      kvs.lookup "dependencies" = some (strGroup d) →
      kvs.lookup "devDependencies" = some (strGroup v) →
      lintNpm (.obj kvs) = some (descMsgs kvs ++ repoMsgs kvs ++
        (if (pySetInter (d.map Prod.fst) (v.map Prod.fst)).isEmpty then []
         else [ovText (String.intercalate ", "
            (pySetInter (d.map Prod.fst) (v.map Prod.fst)))]) ++
        (d.flatMap fun p =>
          if pyInStr "*" p.2 = true then [wildText p.1 (.str p.2)] else []) ++
        (v.flatMap fun p =>
          if pyInStr "*" p.2 = true then [wildText p.1 (.str p.2)] else [])) ∧
      (pySetInter (d.map Prod.fst) (v.map Prod.fst)).Nodup ∧
      (∀ k, k ∈ pySetInter (d.map Prod.fst) (v.map Prod.fst) ↔
        k ∈ d.map Prod.fst ∧ k ∈ v.map Prod.fst)) ∧
    (∀ kvs : List (String × JVal),
      kvs.lookup "dependencies" = none ∨ kvs.lookup "devDependencies" = none →
      ovMsgs kvs = some []) := by
  constructor
  · intro kvs d v hd hv
    have h1 := ovMsgs_both kvs _ _ hd hv
    rw [strGroup_keys d, strGroup_keys v] at h1
    refine ⟨?_, ?_, ?_⟩
    · rw [lintNpm_obj, h1, wildGroup_strGroup kvs _ _ hd, wildGroup_strGroup kvs _ _ hv]
      rfl
    · unfold pySetInter
      exact List.nodup_dedup _
    · intro k
      unfold pySetInter
      rw [List.mem_dedup]
      exact List.mem_inter_iff ..
  · exact ovMsgs_absent

/-- C4 witness: a shared key `a` yields one overlap Warning listing `a`. -/
theorem npm_overlap_rule_witness :
    lintNpm (.obj [("dependencies", strGroup [("a", "*"), ("b", "1.0.0")]),
                   ("devDependencies", strGroup [("a", "2.0.0"), ("c", "3.0.0")])]) =
      some [descText, repoText, ovText "a", wildText "a" (.str "*")] := by
  have h := (npm_overlap_rule.1
    [("dependencies", strGroup [("a", "*"), ("b", "1.0.0")]),
     ("devDependencies", strGroup [("a", "2.0.0"), ("c", "3.0.0")])]
    [("a", "*"), ("b", "1.0.0")] [("a", "2.0.0"), ("c", "3.0.0")] rfl rfl).1
  rw [h]
  rfl

/-- C5: the wildcard pass scans `dependencies` then `devDependencies` in that
order, scans a group even when the other is absent, and emits, per dependency
in iteration order, exactly one wildcard Warning naming the dependency and
its version iff the version-spec string contains `*`. -/
theorem npm_wildcard_rule :
    (∀ (kvs : List (String × JVal)) (name : String) (g : List (String × String)),
      kvs.lookup name = some (strGroup g) →
      wildGroup kvs name = some (g.flatMap fun p =>
        if pyInStr "*" p.2 = true then [wildText p.1 (.str p.2)] else [])) ∧
    (∀ (kvs : List (String × JVal)) (name : String),
      kvs.lookup name = none → wildGroup kvs name = some []) ∧
    (∀ (kvs : List (String × JVal)) (ov w1 w2 : List String),
      ovMsgs kvs = some ov →
      wildGroup kvs "dependencies" = some w1 →
      wildGroup kvs "devDependencies" = some w2 →
      lintNpm (.obj kvs) = some (descMsgs kvs ++ repoMsgs kvs ++ ov ++ w1 ++ w2)) := by
  refine ⟨wildGroup_strGroup, wildGroup_absent, fun kvs ov w1 w2 h1 h2 h3 => ?_⟩
  rw [lintNpm_obj, h1, h2, h3]
  rfl

/-- C5 witness: only the starred dependency is flagged; an absent group
contributes nothing. -/
theorem npm_wildcard_rule_witness :
    wildGroup [("dependencies", strGroup [("x", "*abc"), ("y", "1.0")])] "dependencies" =
      some [wildText "x" (.str "*abc")] ∧
    wildGroup [("dependencies", strGroup [("x", "*abc"), ("y", "1.0")])] "devDependencies" =
      some [] := by
  constructor
  · have h := npm_wildcard_rule.1 [("dependencies", strGroup [("x", "*abc"), ("y", "1.0")])]
      "dependencies" [("x", "*abc"), ("y", "1.0")] rfl
    rw [h]
    rfl
  · exact npm_wildcard_rule.2.1 _ "devDependencies" rfl

lemma asStrList_map (ls : List String) : asStrList (ls.map .str) = some ls := by
  induction ls with
  | nil => rfl
  | cons s rest ih => simp [asStrList, ih]

lemma lintPip_none (kvs : List (String × JVal))
    (h : kvs.lookup "dependencies" = none) : lintPip (.obj kvs) = some [] := by
  unfold lintPip
  simp [itemsOf, h]

lemma lintPip_strs (kvs : List (String × JVal)) (ls : List String)
    (h : kvs.lookup "dependencies" = some (.arr (ls.map .str))) :
    lintPip (.obj kvs) = some (lintPipDeps ls) := by
  unfold lintPip
  simp [itemsOf, h, asStrList_map]

lemma ovMsgs_groupOk (kvs : List (String × JVal))
    (hd : GroupOk (kvs.lookup "dependencies"))
    (hv : GroupOk (kvs.lookup "devDependencies")) :
    ∃ ov, ovMsgs kvs = some ov := by
  rcases hd with hd | ⟨d, hd⟩
  · exact ⟨[], ovMsgs_absent kvs (Or.inl hd)⟩
  rcases hv with hv | ⟨v, hv⟩
  · exact ⟨[], ovMsgs_absent kvs (Or.inr hv)⟩
  exact ⟨_, ovMsgs_both kvs _ _ hd hv⟩

lemma wildGroup_groupOk (kvs : List (String × JVal)) (name : String)
    (h : GroupOk (kvs.lookup name)) : ∃ w, wildGroup kvs name = some w := by
  rcases h with h | ⟨g, h⟩
  · exact ⟨[], wildGroup_absent kvs name h⟩
  · exact ⟨_, wildGroup_strGroup kvs name g h⟩

/-- C6: on any normalized manifest whose shape matches its declared format
(npm: object with string-valued dependency groups; pip: the loader's
list-of-specifier-strings object; maven: anything, since the stub ignores
it), the evaluator is total: it returns a (possibly empty) diagnostic
sequence and never fails. -/
theorem evaluator_total (m : JVal) :
    (NpmShaped m → ∃ msgs, lint "npm" m = some msgs) ∧
    (PipShaped m → ∃ msgs, lint "pip" m = some msgs) ∧
    lint "maven" m = some [mavenText] := by
  refine ⟨?_, ?_, rfl⟩
  · rintro ⟨kvs, rfl, hd, hv⟩
    obtain ⟨ov, hov⟩ := ovMsgs_groupOk kvs hd hv
    obtain ⟨w1, hw1⟩ := wildGroup_groupOk kvs "dependencies" hd
    obtain ⟨w2, hw2⟩ := wildGroup_groupOk kvs "devDependencies" hv
    refine ⟨descMsgs kvs ++ repoMsgs kvs ++ ov ++ w1 ++ w2, ?_⟩
    have he : lint "npm" (.obj kvs) = lintNpm (.obj kvs) := rfl
    rw [he, lintNpm_obj, hov, hw1, hw2]
    rfl
  · rintro ⟨kvs, rfl, h | ⟨ls, h⟩⟩
    · exact ⟨[], lintPip_none kvs h⟩
    · exact ⟨lintPipDeps ls, lintPip_strs kvs ls h⟩

/-- C6 witness: totality at a concrete shaped npm and pip manifest. -/
theorem evaluator_total_witness :
    (∃ msgs, lint "npm" (.obj [("dependencies", strGroup [("a", "*")])]) = some msgs) ∧
    (∃ msgs, lint "pip" (.obj [("dependencies", .arr [.str "requests"])]) = some msgs) :=
  ⟨(evaluator_total _).1 ⟨_, rfl, Or.inr ⟨[("a", "*")], rfl⟩, Or.inl rfl⟩,
   (evaluator_total _).2.1 ⟨_, rfl, Or.inr ⟨["requests"], rfl⟩⟩⟩

/-- C10: the `description` and `repository` checks are truthiness tests, not
presence tests: a key mapped to any falsy value (empty string, null, false,
0, empty array, empty object) produces the same missing-field Warning as an
absent key, and evaluation always starts with these two checks' output. -/
theorem npm_truthiness_missing_fields :
    (∀ (kvs : List (String × JVal)) (v : JVal),
      kvs.lookup "description" = some v →
      (v = .str "" ∨ v = .null ∨ v = .bool false ∨ v = .num 0 ∨ v = .arr [] ∨ v = .obj []) →
      descMsgs kvs = [descText]) ∧
    (∀ kvs : List (String × JVal),
      kvs.lookup "description" = none → descMsgs kvs = [descText]) ∧
    (∀ (kvs : List (String × JVal)) (v : JVal),
      kvs.lookup "repository" = some v →
      (v = .str "" ∨ v = .null ∨ v = .bool false ∨ v = .num 0 ∨ v = .arr [] ∨ v = .obj []) →
      repoMsgs kvs = [repoText]) ∧
    (∀ kvs : List (String × JVal),
      kvs.lookup "repository" = none → repoMsgs kvs = [repoText]) ∧
    (∀ (kvs : List (String × JVal)) (out : List String),
      lintNpm (.obj kvs) = some out →
      ∃ rest, out = descMsgs kvs ++ repoMsgs kvs ++ rest) := by
  refine ⟨?_, ?_, ?_, ?_, ?_⟩
  · intro kvs v hv hfalsy
    unfold descMsgs pyGet
    rw [hv]
    rcases hfalsy with rfl | rfl | rfl | rfl | rfl | rfl <;> rfl
  · intro kvs h
    unfold descMsgs pyGet
    rw [h]
    rfl
  · intro kvs v hv hfalsy
    unfold repoMsgs pyGet
    rw [hv]
    rcases hfalsy with rfl | rfl | rfl | rfl | rfl | rfl <;> rfl
  · intro kvs h
    unfold repoMsgs pyGet
    rw [h]
    rfl
  · intro kvs out h
    rw [lintNpm_obj] at h
    simp only [Option.bind_eq_some, Option.some.injEq] at h
    obtain ⟨ov, _, w1, _, w2, _, rfl⟩ := h
    exact ⟨ov ++ w1 ++ w2, by simp [List.append_assoc]⟩

/-- C10 witness: falsy-valued `description` and `repository` keys trigger the
same Warnings as absence. -/
theorem npm_truthiness_missing_fields_witness :
    descMsgs [("description", JVal.str ""), ("repository", JVal.arr [])] = [descText] ∧
    repoMsgs [("description", JVal.str ""), ("repository", JVal.arr [])] = [repoText] :=
  ⟨npm_truthiness_missing_fields.1 _ (JVal.str "") rfl (Or.inl rfl),
   npm_truthiness_missing_fields.2.2.1 _ (JVal.arr []) rfl
     (Or.inr (Or.inr (Or.inr (Or.inr (Or.inl rfl)))))⟩
